import Mathlib

/-!
# Repair Tracker — verification of the repair-ticket data store

A shallow embedding of `src/RepairTracker.py` (a Streamlit fleet-maintenance
ticketing app backed by CSV files), covering: the persistence layer
(`load_df_csv`, `save_df_csv`, `backup_df_csv`), the session-init
normalization of the repairs table, the Add Repair action, the
View-Repairs filter and totals, the Trend per-unit metrics, and the
bulk Edit/Delete commit ("Apply Update to Selected").

Cell values are modelled by `Val` (a string or an integer); pandas'
`pd.to_numeric(..., errors="coerce").fillna(0)` coercion is modelled by
`toNumInt`, where integer-literal parsing of strings stands in for
pandas numeric parsing. Monetary amounts (`Cost`) are modelled as
integers: none of the verified properties depend on fractional values.
Dates are modelled as their already-formatted `MM/DD/YYYY` strings.
-/

/-- A cell value of a table: either text or a number. -/
inductive Val where
  | str : String → Val
  | num : Int → Val
deriving DecidableEq, Repr

/-- Column dtype as pandas sees it: `object` (text) or numeric. -/
inductive Dtype where
  | object : Dtype
  | numeric : Dtype
deriving DecidableEq, Repr

/-- Python `str.strip()`: remove leading and trailing whitespace. Implemented
by structural recursion over the character list so that concrete instances
evaluate inside the kernel (`String.trim` is defined by well-founded
recursion and does not reduce there). -/
def String.strip (s : String) : String :=
  ⟨((s.data.dropWhile Char.isWhitespace).reverse.dropWhile Char.isWhitespace).reverse⟩

/-- Parse a non-empty all-digit character list as a natural number. -/
def parseDigits (l : List Char) : Option Nat :=
  if l.isEmpty then none
  else if l.all Char.isDigit then
    some (l.foldl (fun acc c => acc * 10 + (c.toNat - 48)) 0)
  else none

/-- Parse a decimal integer literal with an optional leading minus sign: the
integer fragment of pandas numeric string parsing, kernel-computable. -/
def parseIntLit (s : String) : Option Int :=
  match s.data with
  | '-' :: ds => (parseDigits ds).map (fun n => -(n : Int))
  | ds => (parseDigits ds).map (fun n => (n : Int))

/-- Models `pd.to_numeric(v, errors="coerce").fillna(0)` (integer-valued):
a number stays itself; a stripped string parses as an integer literal,
and anything unparseable becomes `0`. -/
def toNumInt : Val → Int
  | .num n => n
  | .str s => (parseIntLit s.strip).getD 0

/-- A named column of a DataFrame. -/
structure Column where
  name : String
  dtype : Dtype
  values : List Val
deriving DecidableEq, Repr

/-- A DataFrame: a row count and a list of named columns. -/
structure DataFrame where
  nrows : Nat
  cols : List Column
deriving DecidableEq, Repr

/-- `name in df.columns`. -/
def DataFrame.hasCol (df : DataFrame) (n : String) : Bool :=
  df.cols.any (fun c => c.name == n)

/-- The first column named `n` (pandas column lookup). -/
def DataFrame.getCol (df : DataFrame) (n : String) : Option Column :=
  df.cols.find? (fun c => c.name == n)

/-- The value a missing default-schema column is filled with:
`"" if default_df[col].dtype == "object" else 0`. -/
def fillVal : Dtype → Val
  | .object => Val.str ""
  | .numeric => Val.num 0

/-- `df.rename(columns={"YYMM": "YMM"})`: every column named `YYMM` is
renamed to `YMM`, values and dtype kept. -/
def renameYYMM (df : DataFrame) : DataFrame :=
  ⟨df.nrows, df.cols.map (fun c => if c.name = "YYMM" then { c with name := "YMM" } else c)⟩

/-- `for col in default_df.columns: if col not in df.columns: df[col] = fill`:
append, for every default column absent from `df`, a new column filled with
the type-appropriate empty value. -/
def ensureCols (df : DataFrame) : List Column → DataFrame
  | [] => df
  | dc :: ds =>
    ensureCols
      (if df.hasCol dc.name then df
       else ⟨df.nrows, df.cols ++ [⟨dc.name, dc.dtype, List.replicate df.nrows (fillVal dc.dtype)⟩]⟩)
      ds

/-- The legacy-schema migration step of `load_df_csv`:
`if "YYMM" in df.columns and "YMM" not in df.columns: rename`. -/
def migrateYYMM (df : DataFrame) : DataFrame :=
  if df.hasCol "YYMM" && !(df.hasCol "YMM") then renameYYMM df else df

/-- `load_df_csv(path, default_df)`: `fileDf = none` models a missing (or
unreadable) file, returning a copy of the default; otherwise the read frame
gets the `YYMM -> YMM` rename (only when `YYMM` is present and `YMM` absent),
every missing default column added, and finally
`df[[c for c in default_df.columns if c in df.columns]]` restricts and
reorders the columns to the default order. -/
def load_df_csv (fileDf : Option DataFrame) (defaultDf : DataFrame) : DataFrame :=
  match fileDf with
  | none => defaultDf
  | some df =>
    let df2 := ensureCols (migrateYYMM df) defaultDf.cols
    ⟨df2.nrows, defaultDf.cols.filterMap (fun dc => df2.cols.find? (fun c => c.name == dc.name))⟩

/-- The files touched by `save_df_csv`: the primary CSV's content and the
`Backups/` directory as an association list of snapshot file names. -/
structure SaveState where
  primary : Option DataFrame
  backups : List (String × DataFrame)
deriving DecidableEq, Repr

/-- `f"{src_path.stem}_{today}.csv"`. -/
def snapName (stem today : String) : String :=
  stem ++ "_" ++ today ++ ".csv"

/-- `backup_df_csv(src_path, df)`: write `df` to the dated snapshot only if a
snapshot of that exact name does not already exist; a failing write
(`backupOk = false`) is swallowed and leaves the directory untouched. -/
def backup_df_csv (st : SaveState) (stem today : String) (df : DataFrame)
    (backupOk : Bool) : SaveState :=
  if st.backups.any (fun p => p.1 == snapName stem today) then st
  else if backupOk then { st with backups := st.backups ++ [(snapName stem today, df)] }
  else st

/-- `save_df_csv(path, df)`: write the full table to the primary file, then
attempt the daily snapshot. A primary-write failure (`primaryOk = false`)
aborts before the snapshot and changes nothing (warning only). -/
def save_df_csv (st : SaveState) (stem today : String) (df : DataFrame)
    (primaryOk backupOk : Bool) : SaveState :=
  if primaryOk then backup_df_csv { st with primary := some df } stem today df backupOk
  else st

/-!
## The repairs table

One `RepairRow` is one row of `repairs_data.csv` (one alert/issue instance).
`Downtime (Days)` and `Cost` are kept as raw `Val` cells because the UI
re-coerces them with `pd.to_numeric(..., errors="coerce").fillna(0)` at
every aggregation site.
-/

structure RepairRow where
  ticketId : Int
  unit : String
  ymm : String
  alertType : String
  description : String
  mileage : Int
  date : String
  scheduled : String
  priority : String
  assignedTo : String
  status : String
  openMilesAt : String
  downtime : Val
  cost : Val
  completedDate : String
  notes : String
deriving DecidableEq, Repr

/-- `df_repairs["Ticket ID"].max()` over a non-empty table (the caller
branches on emptiness first; `0` is returned for the empty table only to
totalise the function and is never used by `addRepair`). -/
def maxTicketId (rows : List RepairRow) : Int :=
  match rows with
  | [] => 0
  | r :: rs => (rs.map RepairRow.ticketId).foldl max r.ticketId

/-- The Add Repair form fields as submitted. `dateVal` and `schedVal` hold
the `MM/DD/YYYY`-formatted values of the two date pickers; `alertPick` is the
selectbox choice and `alertOther` the free-text shown when the choice is
`"Other (type below)"`. -/
structure AddForm where
  unit : String
  ymm : String
  alertPick : String
  alertOther : String
  description : String
  mileage : Int
  dateVal : String
  schedVal : String
  priority : String
  assignedTo : String
  status : String
  downtime : Int
  cost : Int
  notes : String
deriving DecidableEq, Repr

/-- The Add Repair submission handler. Returns the new repairs table and the
list of tables passed to `save_df_csv` (empty on validation failure).
`today` models `date.today()` at the moment the action runs; the handler
never consults it (the Completed Date comes from the form's Date field). -/
def addRepair (rows : List RepairRow) (f : AddForm) (today : String) :
    List RepairRow × List (List RepairRow) :=
  if f.unit = "" ∨ f.description = "" then (rows, [])
  else
    let nextId : Int := if rows.isEmpty then 1 else maxTicketId rows + 1
    let alertFinal := if f.alertPick = "Other (type below)" then f.alertOther.strip else f.alertPick
    let completedDate := if f.status = "Completed" then f.dateVal else ""
    let newRow : RepairRow :=
      { ticketId := nextId
        unit := f.unit
        ymm := f.ymm.strip
        alertType := alertFinal
        description := f.description
        mileage := f.mileage
        date := f.dateVal
        scheduled := f.schedVal
        priority := f.priority
        assignedTo := f.assignedTo
        status := f.status
        openMilesAt := f.dateVal
        downtime := Val.num f.downtime
        cost := Val.num f.cost
        completedDate := completedDate
        notes := f.notes }
    let rows2 := rows ++ [newRow]
    (rows2, [rows2])

/-!
## View Repairs: filters and totals
-/

/-- `q` occurs in `s` as a (character-list) substring. -/
def substrAux (q : List Char) : List Char → Bool
  | [] => q.isPrefixOf []
  | c :: t => q.isPrefixOf (c :: t) || substrAux q t

/-- `q` occurs in `s` as a case-insensitive substring
(`re.compile(re.escape(q), re.IGNORECASE)` + `str.contains`). -/
def strContainsCI (s q : String) : Bool :=
  substrAux (q.toLower.toList) (s.toLower.toList)

/-- The View Repairs filter controls: five multiselects and the free-text
search box (raw text; the handler strips it). -/
structure FilterCriteria where
  selStatus : List String
  selAssigned : List String
  selPriority : List String
  selUnit : List String
  selYmm : List String
  query : String
deriving Repr

/-- The text-search predicate: the stripped query is a case-insensitive
substring of Description, Notes, or Alert Type/Issue. -/
def textMatch (q : String) (r : RepairRow) : Bool :=
  strContainsCI r.description q || strContainsCI r.notes q || strContainsCI r.alertType q

/-- The View Repairs filter pipeline: each non-empty multiselect keeps the
rows whose field is in the selection (`isin`); a non-empty stripped query
then applies `textMatch`. -/
def applyRepairFilters (rows : List RepairRow) (c : FilterCriteria) : List RepairRow :=
  let v1 := if c.selStatus.isEmpty then rows else rows.filter (fun r => c.selStatus.contains r.status)
  let v2 := if c.selAssigned.isEmpty then v1 else v1.filter (fun r => c.selAssigned.contains r.assignedTo)
  let v3 := if c.selPriority.isEmpty then v2 else v2.filter (fun r => c.selPriority.contains r.priority)
  let v4 := if c.selUnit.isEmpty then v3 else v3.filter (fun r => c.selUnit.contains r.unit)
  let v5 := if c.selYmm.isEmpty then v4 else v4.filter (fun r => c.selYmm.contains r.ymm)
  let q := c.query.strip
  if q.isEmpty then v5 else v5.filter (textMatch q)

/-- `pd.to_numeric(view_df["Downtime (Days)"], errors="coerce").fillna(0).sum()`. -/
def totalDowntime (rows : List RepairRow) : Int :=
  (rows.map (fun r => toNumInt r.downtime)).sum

/-- `pd.to_numeric(view_df["Cost"], errors="coerce").fillna(0.0).sum()`. -/
def totalCost (rows : List RepairRow) : Int :=
  (rows.map (fun r => toNumInt r.cost)).sum

/-- The "Total Downtime (Days)" metric:
`int(total_repairs and total_downtime or 0)` — Python truthiness collapses
this to the plain sum (`0` when the filtered table is empty or the sum is 0). -/
def downtimeMetric (rows : List RepairRow) : Int :=
  if rows.length = 0 then 0
  else if totalDowntime rows = 0 then 0
  else totalDowntime rows

/-- `df_repairs[df_repairs["Unit #"] == sel_unit]` (Trend page). -/
def unitRows (rows : List RepairRow) (unit : String) : List RepairRow :=
  rows.filter (fun r => r.unit = unit)

/-- Trend metric k4: Downtime summed over the selected unit's rows. -/
def trendDowntime (rows : List RepairRow) (unit : String) : Int :=
  totalDowntime (unitRows rows unit)

/-- Trend metric k3: Cost summed over the selected unit's rows. -/
def trendCost (rows : List RepairRow) (unit : String) : Int :=
  totalCost (unitRows rows unit)

/-!
## Edit/Delete: "Apply Update to Selected"

The editable grid exposes one `GridRow` per repairs row (addressed by the
stable `RowID` = positional index created by `reset_index()`, so RowIDs are
distinct and `selected_ids` never repeats an index). `scheduled = none`
models a null (`NaT`) date cell, written back as `""`.
-/

structure GridRow where
  scheduled : Option String
  priority : String
  assignedTo : String
  status : String
  downtime : Val
  cost : Val
  alertType : String
deriving DecidableEq, Repr

/-- The bulk controls above the grid. -/
structure BulkParams where
  newStatus : String
  bulkAlertChoice : String
  bulkAlertOther : String
  notesText : String
  appendNotes : Bool
deriving DecidableEq, Repr

/-- One iteration of the "Apply Update to Selected" loop on one selected row:
copy the per-row grid fields, then the bulk Status override, then the
Completed Date recomputation, then the bulk Alert Type override, then the
bulk Notes append/replace. `today` models `date.today()`. -/
def applyRowUpdate (today : String) (p : BulkParams) (g : GridRow) (r : RepairRow) : RepairRow :=
  let r1 := { r with
    scheduled := g.scheduled.getD ""
    priority := g.priority
    assignedTo := g.assignedTo
    status := g.status
    downtime := g.downtime
    cost := g.cost
    alertType := g.alertType }
  let r2 := if p.newStatus ≠ "(no change)" then { r1 with status := p.newStatus } else r1
  let r3 :=
    if r2.status = "Completed" ∧ r2.completedDate.strip = "" then
      { r2 with completedDate := today }
    else if r2.status ≠ "Completed" then
      { r2 with completedDate := "" }
    else r2
  let r4 :=
    if p.bulkAlertChoice ≠ "(no change)" then
      { r3 with alertType :=
          if p.bulkAlertChoice = "Other (type below)" then p.bulkAlertOther.strip
          else p.bulkAlertChoice }
    else r3
  if p.notesText.strip ≠ "" then
    if p.appendNotes then
      { r4 with notes :=
          if r4.notes.strip = "" then p.notesText.strip
          else r4.notes.strip ++ " | " ++ p.notesText.strip }
    else { r4 with notes := p.notesText.strip }
  else r4

/-- Apply `applyRowUpdate` to every row whose positional index (starting at
`i`) is in `sel`; other rows are untouched. `grid` gives the edited grid row
for each RowID. -/
def updateSelected (today : String) (p : BulkParams) (grid : Nat → GridRow)
    (sel : List Nat) (i : Nat) : List RepairRow → List RepairRow
  | [] => []
  | r :: rs =>
    (if sel.contains i then applyRowUpdate today p (grid i) r else r)
      :: updateSelected today p grid sel (i + 1) rs

/-- The "Apply Update to Selected" button handler: with an empty selection it
only warns (no update, no save); otherwise every selected row is updated and
then the whole table is saved once. Returns the new table and the list of
tables passed to `save_df_csv`. -/
def bulkCommit (rows : List RepairRow) (sel : List Nat) (grid : Nat → GridRow)
    (p : BulkParams) (today : String) : List RepairRow × List (List RepairRow) :=
  if sel.isEmpty then (rows, [])
  else
    let updated := updateSelected today p grid sel 0 rows
    (updated, [updated])

/-!
## Session-init normalization of the repairs table (DataFrame level)
-/

/-- `if "Ticket ID" not in df_repairs.columns: df_repairs.insert(0, "Ticket ID",
range(1, len(df_repairs) + 1))`. -/
def ensureTicketIdCol (df : DataFrame) : DataFrame :=
  if df.hasCol "Ticket ID" then df
  else ⟨df.nrows,
    ⟨"Ticket ID", Dtype.numeric,
      (List.range df.nrows).map (fun i => Val.num ((i : Int) + 1))⟩ :: df.cols⟩

/-- `df_repairs["Ticket ID"] = pd.to_numeric(df_repairs["Ticket ID"],
errors="coerce").fillna(0).astype(int)` (applied to every column named
Ticket ID). -/
def coerceTicketIdCol (df : DataFrame) : DataFrame :=
  ⟨df.nrows, df.cols.map (fun c =>
    if c.name = "Ticket ID" then
      ⟨c.name, Dtype.numeric, c.values.map (fun v => Val.num (toNumInt v))⟩
    else c)⟩

/-- `if "Completed Date" not in df_repairs.columns:
df_repairs["Completed Date"] = ""`. -/
def ensureCompletedDateCol (df : DataFrame) : DataFrame :=
  if df.hasCol "Completed Date" then df
  else ⟨df.nrows,
    df.cols ++ [⟨"Completed Date", Dtype.object, List.replicate df.nrows (Val.str "")⟩]⟩

/-- The state-init normalization of the repairs table (lines after the three
`load` calls): ensure an integer Ticket ID column and a Completed Date
column. -/
def initNormalizeRepairs (df : DataFrame) : DataFrame :=
  ensureCompletedDateCol (coerceTicketIdCol (ensureTicketIdCol df))

/-!
## Concrete example data (used by witnesses and counterexamples)
-/

/-- A plain open repair row. -/
def exRow : RepairRow :=
  { ticketId := 1
    unit := "FB-10"
    ymm := "2024 FREIGHTLINER M2"
    alertType := "Brakes"
    description := "Oil + filters"
    mileage := 31984
    date := "01/01/2024"
    scheduled := ""
    priority := "Tier 3 (PM)"
    assignedTo := "Rigo"
    status := "Open"
    openMilesAt := "01/01/2024"
    downtime := Val.num 3
    cost := Val.num 10
    completedDate := ""
    notes := "" }

/-- A second alert row on the same ticket (same Ticket ID, same unit). -/
def exRowDup : RepairRow :=
  { exRow with description := "Replace water pump", alertType := "Radiator" }

/-- A fully-populated valid Add Repair form with Status = Completed and a
Date different from the day the action runs. -/
def exForm : AddForm :=
  { unit := "FB-10"
    ymm := " 2024 FREIGHTLINER M2 "
    alertPick := "Brakes"
    alertOther := ""
    description := "Replace pads"
    mileage := 100
    dateVal := "01/02/2024"
    schedVal := "01/03/2024"
    priority := "Tier 2 (High)"
    assignedTo := "Rigo"
    status := "Completed"
    downtime := 2
    cost := 150
    notes := "n" }

/-- An example grid row as edited in the Edit/Delete grid. -/
def exGrid : GridRow :=
  { scheduled := some "02/03/2024"
    priority := "Tier 1 (Critical)"
    assignedTo := "Ana"
    status := "Scheduled"
    downtime := Val.num 4
    cost := Val.num 20
    alertType := "Tires" }

/-- Example bulk controls: bulk Status and bulk Alert Type both set. -/
def exBulk : BulkParams :=
  { newStatus := "Open"
    bulkAlertChoice := "Electrical"
    bulkAlertOther := ""
    notesText := " checked "
    appendNotes := true }

/-!
## Lemmas about one bulk-update iteration
-/

/-- The Status written by one bulk-update iteration: the bulk Status when it
is not `"(no change)"`, the per-row grid Status otherwise. -/
lemma applyRowUpdate_status (today : String) (p : BulkParams) (g : GridRow) (r : RepairRow) :
    (applyRowUpdate today p g r).status =
      if p.newStatus ≠ "(no change)" then p.newStatus else g.status := by
  unfold applyRowUpdate
  by_cases h1 : p.newStatus ≠ "(no change)" <;>
    simp [h1, apply_ite RepairRow.status]

/-- The Alert Type written by one bulk-update iteration: the resolved bulk
choice when it is not `"(no change)"`, the per-row grid value otherwise. -/
lemma applyRowUpdate_alertType (today : String) (p : BulkParams) (g : GridRow) (r : RepairRow) :
    (applyRowUpdate today p g r).alertType =
      if p.bulkAlertChoice ≠ "(no change)" then
        (if p.bulkAlertChoice = "Other (type below)" then p.bulkAlertOther.strip
         else p.bulkAlertChoice)
      else g.alertType := by
  unfold applyRowUpdate
  by_cases h1 : p.newStatus ≠ "(no change)" <;>
  by_cases h2 : p.bulkAlertChoice ≠ "(no change)" <;>
    simp [h1, h2, apply_ite RepairRow.alertType]

/-- The Notes written by one bulk-update iteration. -/
lemma applyRowUpdate_notes (today : String) (p : BulkParams) (g : GridRow) (r : RepairRow) :
    (applyRowUpdate today p g r).notes =
      if p.notesText.strip = "" then r.notes
      else if p.appendNotes then
        (if r.notes.strip = "" then p.notesText.strip
         else r.notes.strip ++ " | " ++ p.notesText.strip)
      else p.notesText.strip := by
  unfold applyRowUpdate
  by_cases hq : p.notesText.strip = "" <;>
    simp [hq, apply_ite RepairRow.notes]

/-- The Completed Date written by one bulk-update iteration, as a function of
the post-override Status and the row's previous Completed Date. -/
lemma applyRowUpdate_completedDate (today : String) (p : BulkParams) (g : GridRow) (r : RepairRow) :
    (applyRowUpdate today p g r).completedDate =
      (if (if p.newStatus ≠ "(no change)" then p.newStatus else g.status) = "Completed" then
        (if r.completedDate.strip = "" then today else r.completedDate)
       else "") := by
  unfold applyRowUpdate
  by_cases h1 : p.newStatus ≠ "(no change)" <;>
  by_cases h2 : (if p.newStatus ≠ "(no change)" then p.newStatus else g.status) = "Completed" <;>
  by_cases h3 : r.completedDate.strip = "" <;>
    simp_all [apply_ite RepairRow.completedDate, apply_ite RepairRow.notes]

lemma updateSelected_length (today : String) (p : BulkParams) (grid : Nat → GridRow)
    (sel : List Nat) : ∀ (l : List RepairRow) (i : Nat),
    (updateSelected today p grid sel i l).length = l.length := by
  intro l
  induction l with
  | nil => intro i; rfl
  | cons r rs ih => intro i; simp [updateSelected, ih]

lemma updateSelected_get (today : String) (p : BulkParams) (grid : Nat → GridRow)
    (sel : List Nat) : ∀ (l : List RepairRow) (i j : Nat) (hj : j < l.length)
    (hj2 : j < (updateSelected today p grid sel i l).length),
    (updateSelected today p grid sel i l).get ⟨j, hj2⟩ =
      if sel.contains (i + j) then applyRowUpdate today p (grid (i + j)) (l.get ⟨j, hj⟩)
      else l.get ⟨j, hj⟩ := by
  intro l
  induction l with
  | nil => intro i j hj; cases hj
  | cons r rs ih =>
    intro i j hj hj2
    cases j with
    | zero => simp [updateSelected]
    | succ k =>
      have hk : k < rs.length := Nat.lt_of_succ_lt_succ hj
      have := ih (i + 1) k hk
      simp only [updateSelected, List.get_cons_succ]
      rw [this (by simpa [updateSelected_length] using hk)]
      have harith : i + 1 + k = i + (k + 1) := by omega
      rw [harith]

/-!
## Claim C7 — bulk overrides win; one save per commit
-/

/-- C7: in a bulk-update commit over a non-empty selection, each selected row
receives its per-row grid edits and then the bulk overrides, so a bulk Status
or bulk Alert Type other than `"(no change)"` wins over the per-row grid
value for every selected row; and all selected rows are updated before the
repairs table is saved exactly once (with the fully updated table). -/
theorem bulk_overrides_win_and_single_save (rows : List RepairRow) (sel : List Nat)
    (grid : Nat → GridRow) (p : BulkParams) (today : String) (i : Nat)
    (hsel : sel ≠ []) (hi : sel.contains i = true) (hlt : i < rows.length) :
    (bulkCommit rows sel grid p today).2 = [(bulkCommit rows sel grid p today).1] ∧
    ∃ hlen : i < (bulkCommit rows sel grid p today).1.length,
      ((bulkCommit rows sel grid p today).1.get ⟨i, hlen⟩).status =
        (if p.newStatus ≠ "(no change)" then p.newStatus else (grid i).status) ∧
      ((bulkCommit rows sel grid p today).1.get ⟨i, hlen⟩).alertType =
        (if p.bulkAlertChoice ≠ "(no change)" then
          (if p.bulkAlertChoice = "Other (type below)" then p.bulkAlertOther.strip
           else p.bulkAlertChoice)
         else (grid i).alertType) := by
  have hne : sel.isEmpty = false := by
    cases sel with
    | nil => exact absurd rfl hsel
    | cons a l => rfl
  have hcommit : bulkCommit rows sel grid p today =
      (updateSelected today p grid sel 0 rows, [updateSelected today p grid sel 0 rows]) := by
    unfold bulkCommit
    simp [hne]
  rw [hcommit]
  refine ⟨rfl, ?_⟩
  have hlen : i < (updateSelected today p grid sel 0 rows).length := by
    simpa [updateSelected_length] using hlt
  refine ⟨hlen, ?_⟩
  have hget := updateSelected_get today p grid sel rows 0 i hlt hlen
  rw [Nat.zero_add] at hget
  rw [hget]
  have him : i ∈ sel := by simpa using hi
  simp [hi, him, applyRowUpdate_status, applyRowUpdate_alertType]

/-- Witness for C7 at a concrete two-row table with both rows selected. -/
theorem bulk_overrides_win_and_single_save_witness :
    (([0, 1] : List Nat) ≠ []) ∧ (([0, 1] : List Nat).contains 0 = true) ∧
    (0 < [exRow, exRowDup].length) ∧
    ((bulkCommit [exRow, exRowDup] [0, 1] (fun _ => exGrid) exBulk "05/06/2024").2 =
        [(bulkCommit [exRow, exRowDup] [0, 1] (fun _ => exGrid) exBulk "05/06/2024").1] ∧
      ∃ hlen : 0 < (bulkCommit [exRow, exRowDup] [0, 1] (fun _ => exGrid) exBulk "05/06/2024").1.length,
        (((bulkCommit [exRow, exRowDup] [0, 1] (fun _ => exGrid) exBulk "05/06/2024").1.get
            ⟨0, hlen⟩).status =
          (if exBulk.newStatus ≠ "(no change)" then exBulk.newStatus else (exGrid).status)) ∧
        (((bulkCommit [exRow, exRowDup] [0, 1] (fun _ => exGrid) exBulk "05/06/2024").1.get
            ⟨0, hlen⟩).alertType =
          (if exBulk.bulkAlertChoice ≠ "(no change)" then
            (if exBulk.bulkAlertChoice = "Other (type below)" then exBulk.bulkAlertOther.strip
             else exBulk.bulkAlertChoice)
           else (exGrid).alertType))) :=
  ⟨by decide, by decide, by decide,
    bulk_overrides_win_and_single_save [exRow, exRowDup] [0, 1] (fun _ => exGrid) exBulk
      "05/06/2024" 0 (by decide) (by decide) (by decide)⟩

/-!
## Claim C8 — Add Repair validation
-/

/-- C8: an Add Repair submission with an empty Unit # or an empty Description
is rejected: the repairs table is returned exactly as it was and no save is
triggered. -/
theorem addRepair_rejects_empty_required (rows : List RepairRow) (f : AddForm) (today : String)
    (h : f.unit = "" ∨ f.description = "") :
    addRepair rows f today = (rows, []) := by
  unfold addRepair
  rw [if_pos h]

/-- Witness for C8: a form with an empty Description leaves the table
untouched and saves nothing. -/
theorem addRepair_rejects_empty_required_witness :
    (({ exForm with description := "" } : AddForm).unit = "" ∨
      ({ exForm with description := "" } : AddForm).description = "") ∧
    addRepair [exRow] { exForm with description := "" } "05/06/2024" = ([exRow], []) :=
  ⟨Or.inr rfl,
    addRepair_rejects_empty_required [exRow] { exForm with description := "" } "05/06/2024"
      (Or.inr rfl)⟩

/-!
## Claim C9 — bulk Notes semantics
-/

/-- C9: for a selected row in a bulk update, blank (after trimming) bulk
Notes leave the row's Notes unchanged; non-blank bulk Notes in append mode
produce the old trimmed Notes, the separator `" | "`, and the new trimmed
text (just the new text when the old trimmed Notes were empty); in replace
mode the Notes become the new trimmed text. -/
theorem bulk_notes_semantics (today : String) (p : BulkParams) (g : GridRow) (r : RepairRow) :
    (applyRowUpdate today p g r).notes =
      if p.notesText.strip = "" then r.notes
      else if p.appendNotes then
        (if r.notes.strip = "" then p.notesText.strip
         else r.notes.strip ++ " | " ++ p.notesText.strip)
      else p.notesText.strip := by
  unfold applyRowUpdate
  by_cases hq : p.notesText.strip = "" <;>
    simp [hq, apply_ite RepairRow.notes]

/-!
## Claim C3 — Ticket ID assignment on add
-/

lemma le_foldl_max (l : List Int) (a : Int) : a ≤ l.foldl max a := by
  induction l generalizing a with
  | nil => exact le_refl a
  | cons x xs ih => exact le_trans (le_max_left a x) (ih (max a x))

lemma mem_le_foldl_max (l : List Int) (a : Int) : ∀ x ∈ l, x ≤ l.foldl max a := by
  induction l generalizing a with
  | nil => intro x hx; cases hx
  | cons y ys ih =>
    intro x hx
    rcases List.mem_cons.mp hx with h | h
    · subst h
      exact le_trans (le_max_right a x) (le_foldl_max ys (max a x))
    · exact ih (max a y) x h

lemma foldl_max_eq_or_mem (l : List Int) (a : Int) :
    l.foldl max a = a ∨ l.foldl max a ∈ l := by
  induction l generalizing a with
  | nil => left; rfl
  | cons y ys ih =>
    rcases ih (max a y) with h | h
    · rcases max_choice a y with hm | hm
      · left; rw [List.foldl_cons, h, hm]
      · right; rw [List.foldl_cons, h, hm]; exact List.mem_cons_self y ys
    · right; exact List.mem_cons_of_mem y h

/-- Every ticket id in a non-empty table is bounded by `maxTicketId`. -/
lemma maxTicketId_is_ub (rows : List RepairRow) :
    ∀ r ∈ rows, r.ticketId ≤ maxTicketId rows := by
  cases rows with
  | nil => intro r hr; cases hr
  | cons r0 rs =>
    intro r hr
    rcases List.mem_cons.mp hr with h | h
    · subst h; exact le_foldl_max _ _
    · exact mem_le_foldl_max _ _ _ (List.mem_map_of_mem RepairRow.ticketId h)

/-- In a non-empty table, `maxTicketId` is attained by some row. -/
lemma maxTicketId_mem (rows : List RepairRow) (h : rows ≠ []) :
    ∃ r ∈ rows, maxTicketId rows = r.ticketId := by
  cases rows with
  | nil => exact absurd rfl h
  | cons r0 rs =>
    rcases foldl_max_eq_or_mem (rs.map RepairRow.ticketId) r0.ticketId with hm | hm
    · exact ⟨r0, List.mem_cons_self r0 rs, hm⟩
    · rcases List.mem_map.mp hm with ⟨r, hr, hid⟩
      exact ⟨r, List.mem_cons_of_mem r0 hr, hid.symm⟩

/-- C3: a valid Add Repair submission appends exactly one new row; its Ticket
ID is 1 when the repairs table was empty, and otherwise is strictly greater
than every existing Ticket ID and equal to some existing Ticket ID plus one
(i.e. `max(existing) + 1`); every row created by the action (there is exactly
one) carries that single Ticket ID. -/
theorem addRepair_ticketId_assignment (rows : List RepairRow) (f : AddForm) (today : String)
    (hu : ¬ (f.unit = "" ∨ f.description = "")) :
    ∃ nr, (addRepair rows f today).1 = rows ++ [nr] ∧
      (rows = [] → nr.ticketId = 1) ∧
      (rows ≠ [] →
        (∀ r ∈ rows, r.ticketId < nr.ticketId) ∧
        (∃ r ∈ rows, nr.ticketId = r.ticketId + 1)) := by
  unfold addRepair
  rw [if_neg hu]
  refine ⟨_, rfl, ?_, ?_⟩
  · intro h
    subst h
    rfl
  · intro h
    have hne : rows.isEmpty = false := by
      cases rows with
      | nil => exact absurd rfl h
      | cons a l => rfl
    constructor
    · intro r hr
      have hle := maxTicketId_is_ub rows r hr
      simp only [hne, Bool.false_eq_true, if_false]
      omega
    · rcases maxTicketId_mem rows h with ⟨r, hr, hid⟩
      refine ⟨r, hr, ?_⟩
      simp only [hne, Bool.false_eq_true, if_false]
      omega

/-- Witness for C3 on a concrete two-row table with Ticket IDs 1 and 1. -/
theorem addRepair_ticketId_assignment_witness :
    (¬ ((exForm).unit = "" ∨ (exForm).description = "")) ∧
    (∃ nr, (addRepair [exRow, exRowDup] exForm "05/06/2024").1 = [exRow, exRowDup] ++ [nr] ∧
      ([exRow, exRowDup] = ([] : List RepairRow) → nr.ticketId = 1) ∧
      ([exRow, exRowDup] ≠ ([] : List RepairRow) →
        (∀ r ∈ [exRow, exRowDup], r.ticketId < nr.ticketId) ∧
        (∃ r ∈ [exRow, exRowDup], nr.ticketId = r.ticketId + 1))) :=
  ⟨by decide,
    addRepair_ticketId_assignment [exRow, exRowDup] exForm "05/06/2024" (by decide)⟩

/-!
## Claim C2 — Completed Date derivation

The bulk-update path behaves as claimed, but Add Repair sets the Completed
Date of a new Completed record to the form's Date field
(`date_val.strftime('%m/%d/%Y')`), not to today's date: submitting with a
back-dated Date field refutes the claim as stated.
-/

/-- Refutation of C2 as stated: an Add Repair submission dated 01/02/2024
with Status = Completed, performed on 05/06/2024, stores Completed Date
01/02/2024 — a freshly Completed record whose previously-empty Completed
Date is not set to today's date. -/
theorem completedDate_today_counterexample :
    ((addRepair [] exForm "05/06/2024").1.head?.map RepairRow.completedDate =
      some "01/02/2024") ∧
    ((addRepair [] exForm "05/06/2024").1.head?.map RepairRow.status = some "Completed") ∧
    ("01/02/2024" : String) ≠ "05/06/2024" := by
  refine ⟨by decide, by decide, by decide⟩

/-- C2 (amended): Completed Date is non-empty exactly when Status is
Completed, for both mutating operations. On Add Repair the field is set to
the submitted Date value (not the current date) when Status is Completed and
cleared otherwise. On a bulk-update row, when the post-override Status is
Completed the field is set to today's date if it was previously blank after
trimming and kept unchanged otherwise, and it is cleared whenever the
post-override Status is not Completed. -/
theorem completedDate_invariant_amended (rows : List RepairRow) (f : AddForm)
    (p : BulkParams) (g : GridRow) (r : RepairRow) (today : String)
    (hu : ¬ (f.unit = "" ∨ f.description = "")) (hdate : f.dateVal ≠ "")
    (htoday : today ≠ "") :
    (∃ nr, (addRepair rows f today).1 = rows ++ [nr] ∧ nr.status = f.status ∧
      nr.completedDate = (if f.status = "Completed" then f.dateVal else "") ∧
      (nr.completedDate ≠ "" ↔ nr.status = "Completed")) ∧
    ((applyRowUpdate today p g r).completedDate ≠ "" ↔
      (applyRowUpdate today p g r).status = "Completed") ∧
    ((applyRowUpdate today p g r).status = "Completed" →
      (r.completedDate.strip = "" → (applyRowUpdate today p g r).completedDate = today) ∧
      (r.completedDate.strip ≠ "" → (applyRowUpdate today p g r).completedDate = r.completedDate)) ∧
    ((applyRowUpdate today p g r).status ≠ "Completed" →
      (applyRowUpdate today p g r).completedDate = "") := by
  have hold : r.completedDate.strip ≠ "" → r.completedDate ≠ "" := by
    intro h hcontra
    rw [hcontra] at h
    exact h (by decide)
  refine ⟨?_, ?_, ?_, ?_⟩
  · unfold addRepair
    rw [if_neg hu]
    refine ⟨_, rfl, rfl, rfl, ?_⟩
    by_cases hs : f.status = "Completed" <;> simp [hs, hdate]
  · rw [applyRowUpdate_completedDate, applyRowUpdate_status]
    generalize (if p.newStatus ≠ "(no change)" then p.newStatus else g.status) = s
    by_cases hs : s = "Completed"
    · by_cases hb : r.completedDate.strip = ""
      · simp [hs, hb, htoday]
      · simp [hs, hb, hold hb]
    · simp [hs]
  · rw [applyRowUpdate_completedDate, applyRowUpdate_status]
    intro hs
    rw [if_pos hs]
    exact ⟨fun hb => by rw [if_pos hb], fun hb => by rw [if_neg hb]⟩
  · rw [applyRowUpdate_completedDate, applyRowUpdate_status]
    intro hs
    rw [if_neg hs]

/-- Witness for the amended C2 at concrete inputs. -/
theorem completedDate_invariant_amended_witness :
    (¬ ((exForm).unit = "" ∨ (exForm).description = "")) ∧ ((exForm).dateVal ≠ "") ∧
    (("05/06/2024" : String) ≠ "") ∧
    ((∃ nr, (addRepair [exRow] exForm "05/06/2024").1 = [exRow] ++ [nr] ∧
        nr.status = (exForm).status ∧
        nr.completedDate = (if (exForm).status = "Completed" then (exForm).dateVal else "") ∧
        (nr.completedDate ≠ "" ↔ nr.status = "Completed")) ∧
      ((applyRowUpdate "05/06/2024" exBulk exGrid exRow).completedDate ≠ "" ↔
        (applyRowUpdate "05/06/2024" exBulk exGrid exRow).status = "Completed") ∧
      ((applyRowUpdate "05/06/2024" exBulk exGrid exRow).status = "Completed" →
        ((exRow).completedDate.strip = "" →
          (applyRowUpdate "05/06/2024" exBulk exGrid exRow).completedDate = "05/06/2024") ∧
        ((exRow).completedDate.strip ≠ "" →
          (applyRowUpdate "05/06/2024" exBulk exGrid exRow).completedDate =
            (exRow).completedDate)) ∧
      ((applyRowUpdate "05/06/2024" exBulk exGrid exRow).status ≠ "Completed" →
        (applyRowUpdate "05/06/2024" exBulk exGrid exRow).completedDate = "")) :=
  ⟨by decide, by decide, by decide,
    completedDate_invariant_amended [exRow] exForm exBulk exGrid exRow "05/06/2024"
      (by decide) (by decide) (by decide)⟩

/-!
## Claim C1 — Downtime/Cost aggregates and shared Ticket IDs

Both the View Repairs totals and the Trend per-unit metrics sum over every
row of the (filtered) table; no deduplication by Ticket ID happens anywhere,
so two rows sharing a Ticket ID each contribute their own Downtime and Cost.
-/

/-- Refutation of C1 as stated: two rows sharing Ticket ID 1 with
Downtime = 3 each produce a View Repairs downtime total of 6 (and a Trend
per-unit downtime of 6, cost 10 each summing to 20), not the 3 the claim
requires for a distinct-ticket count. -/
theorem aggregates_double_count_counterexample :
    downtimeMetric [exRow, exRowDup] = 6 ∧
    totalCost [exRow, exRowDup] = 20 ∧
    trendDowntime [exRow, exRowDup] "FB-10" = 6 ∧
    trendCost [exRow, exRowDup] "FB-10" = 20 ∧
    (6 : Int) ≠ 3 := by
  refine ⟨by decide, by decide, by decide, by decide, by decide⟩

/-- C1 (amended): the Downtime and Cost aggregates of View Repairs and of
the Trend metrics are plain per-row sums — appending a row whose Ticket ID
already occurs in the table still increases each aggregate by that row's own
coerced Downtime/Cost, so rows sharing a Ticket ID are each counted. -/
theorem aggregates_sum_per_row (rows : List RepairRow) (r : RepairRow)
    (hdup : ∃ q ∈ rows, q.ticketId = r.ticketId) :
    totalDowntime (rows ++ [r]) = totalDowntime rows + toNumInt r.downtime ∧
    totalCost (rows ++ [r]) = totalCost rows + toNumInt r.cost ∧
    trendDowntime (rows ++ [r]) r.unit = trendDowntime rows r.unit + toNumInt r.downtime ∧
    trendCost (rows ++ [r]) r.unit = trendCost rows r.unit + toNumInt r.cost := by
  refine ⟨?_, ?_, ?_, ?_⟩ <;>
    simp [totalDowntime, totalCost, trendDowntime, trendCost, unitRows, List.filter_append]

/-- Witness for the amended C1: the second duplicate-ticket row adds its own
downtime and cost to every aggregate. -/
theorem aggregates_sum_per_row_witness :
    (∃ q ∈ [exRow], q.ticketId = exRowDup.ticketId) ∧
    (totalDowntime ([exRow] ++ [exRowDup]) = totalDowntime [exRow] + toNumInt exRowDup.downtime ∧
     totalCost ([exRow] ++ [exRowDup]) = totalCost [exRow] + toNumInt exRowDup.cost ∧
     trendDowntime ([exRow] ++ [exRowDup]) exRowDup.unit =
       trendDowntime [exRow] exRowDup.unit + toNumInt exRowDup.downtime ∧
     trendCost ([exRow] ++ [exRowDup]) exRowDup.unit =
       trendCost [exRow] exRowDup.unit + toNumInt exRowDup.cost) :=
  ⟨by decide, aggregates_sum_per_row [exRow] exRowDup (by decide)⟩

/-!
## Claim C6 — View Repairs filtering

`conjFilterPred` is the claim's specification-side predicate (the AND of the
five membership criteria, each vacuous on an empty selection); the lemma
`applyRepairFilters_eq_filter` shows that the sequential filter pipeline of
the source equals one pass of this predicate AND'd with the text search.
-/

/-- Specification-side predicate for C6: conjunction of the five structured
membership criteria, a criterion with an empty selection filtering nothing. -/
def conjFilterPred (c : FilterCriteria) (r : RepairRow) : Bool :=
  (c.selStatus.isEmpty || c.selStatus.contains r.status) &&
  (c.selAssigned.isEmpty || c.selAssigned.contains r.assignedTo) &&
  (c.selPriority.isEmpty || c.selPriority.contains r.priority) &&
  (c.selUnit.isEmpty || c.selUnit.contains r.unit) &&
  (c.selYmm.isEmpty || c.selYmm.contains r.ymm)

/-- Intersection of two row lists, keeping the first list's order. -/
def listInter (l1 l2 : List RepairRow) : List RepairRow :=
  l1.filter (fun r => l2.contains r)

lemma filter_step (rows : List RepairRow) (b : Bool) (p : RepairRow → Bool) :
    (if b then rows else rows.filter p) = rows.filter (fun r => b || p r) := by
  cases b with
  | true => simp
  | false => simp

/-- The sequential View Repairs pipeline equals a single filter by the
conjunction of the structured criteria and the text search. -/
lemma applyRepairFilters_eq_filter (rows : List RepairRow) (c : FilterCriteria) :
    applyRepairFilters rows c =
      rows.filter (fun r => conjFilterPred c r &&
        (c.query.strip.isEmpty || textMatch c.query.strip r)) := by
  unfold applyRepairFilters conjFilterPred
  rw [filter_step rows, filter_step, filter_step, filter_step, filter_step, filter_step]
  simp only [List.filter_filter]
  apply List.filter_congr
  intro r _
  cases c.selStatus.isEmpty || c.selStatus.contains r.status <;>
  cases c.selAssigned.isEmpty || c.selAssigned.contains r.assignedTo <;>
  cases c.selPriority.isEmpty || c.selPriority.contains r.priority <;>
  cases c.selUnit.isEmpty || c.selUnit.contains r.unit <;>
  cases c.selYmm.isEmpty || c.selYmm.contains r.ymm <;>
  cases c.query.strip.isEmpty || textMatch c.query.strip r <;>
    rfl

/-- C6: the View Repairs filter is the AND of the five membership criteria
(an empty selection filters nothing) AND'd with the case-insensitive text
search over Description, Notes and Alert Type/Issue; with every selection
empty and a blank query the input comes back unchanged; and combining a
Status selection with a text query equals intersecting the two independently
filtered results. -/
theorem view_filters_conjunction (rows : List RepairRow) (c : FilterCriteria)
    (S : List String) (q0 q : String) (hq : q.strip = "") :
    (applyRepairFilters rows c =
      rows.filter (fun r => conjFilterPred c r &&
        (c.query.strip.isEmpty || textMatch c.query.strip r))) ∧
    (applyRepairFilters rows ⟨[], [], [], [], [], q⟩ = rows) ∧
    (applyRepairFilters rows ⟨S, [], [], [], [], q0⟩ =
      listInter (applyRepairFilters rows ⟨S, [], [], [], [], ""⟩)
                (applyRepairFilters rows ⟨[], [], [], [], [], q0⟩)) := by
  have hempty : ("" : String).strip = "" := by decide
  have hie : ("" : String).isEmpty = true := by decide
  refine ⟨applyRepairFilters_eq_filter rows c, ?_, ?_⟩
  · rw [applyRepairFilters_eq_filter]
    simp [conjFilterPred, hq, hie]
  · rw [applyRepairFilters_eq_filter, applyRepairFilters_eq_filter,
      applyRepairFilters_eq_filter]
    unfold listInter
    rw [List.filter_filter]
    apply List.filter_congr
    intro r hr
    simp only [conjFilterPred, hempty]
    simp [List.elem_iff, List.mem_filter, hr]
    cases hS : S.isEmpty || S.contains r.status <;>
    cases hQ : q0.strip.isEmpty || textMatch q0.strip r <;>
      simp [hS, hQ, hie]

/-- Example filter criteria: Status and Priority selections plus a query. -/
def exCriteria : FilterCriteria :=
  { selStatus := ["Open"]
    selAssigned := []
    selPriority := ["Tier 3 (PM)"]
    selUnit := []
    selYmm := []
    query := " pump " }

/-- Witness for C6 at concrete rows and criteria (the blank query is a
whitespace-only string). -/
theorem view_filters_conjunction_witness :
    ((" " : String).strip = "") ∧
    ((applyRepairFilters [exRow, exRowDup] exCriteria =
      [exRow, exRowDup].filter (fun r => conjFilterPred exCriteria r &&
        ((exCriteria).query.strip.isEmpty || textMatch (exCriteria).query.strip r))) ∧
    (applyRepairFilters [exRow, exRowDup] ⟨[], [], [], [], [], " "⟩ = [exRow, exRowDup]) ∧
    (applyRepairFilters [exRow, exRowDup] ⟨["Open"], [], [], [], [], "pump"⟩ =
      listInter (applyRepairFilters [exRow, exRowDup] ⟨["Open"], [], [], [], [], ""⟩)
                (applyRepairFilters [exRow, exRowDup] ⟨[], [], [], [], [], "pump"⟩))) :=
  ⟨by decide,
    view_filters_conjunction [exRow, exRowDup] exCriteria ["Open"] "pump" " " (by decide)⟩

/-!
## Claim C5 — primary save and once-per-day snapshot
-/

lemma backup_df_csv_primary (st : SaveState) (stem today : String) (df : DataFrame)
    (bk : Bool) : (backup_df_csv st stem today df bk).primary = st.primary := by
  unfold backup_df_csv
  split
  · rfl
  · split <;> rfl

lemma backup_df_csv_exists (st : SaveState) (stem today : String) (df : DataFrame)
    (bk : Bool) (h : st.backups.any (fun p => p.1 == snapName stem today) = true) :
    backup_df_csv st stem today df bk = st := by
  unfold backup_df_csv
  rw [if_pos h]

lemma backup_df_csv_fresh (st : SaveState) (stem today : String) (df : DataFrame)
    (h : st.backups.any (fun p => p.1 == snapName stem today) = false) :
    backup_df_csv st stem today df true =
      { st with backups := st.backups ++ [(snapName stem today, df)] } := by
  unfold backup_df_csv
  rw [if_neg (by simp [h]), if_pos rfl]

lemma backup_df_csv_fail (st : SaveState) (stem today : String) (df : DataFrame) :
    (backup_df_csv st stem today df false).backups = st.backups := by
  unfold backup_df_csv
  split
  · rfl
  · rw [if_neg (by simp)]

/-- C5: a save with a succeeding primary write always stores the full table
in the primary file; the dated snapshot `<stem>_<date>.csv` is written (with
that same table) only when no snapshot of that exact name exists, a snapshot
write failure leaves the primary save intact, and a second save on the same
day — of any table — adds no snapshot and leaves the first day's snapshot
content untouched. -/
theorem save_writes_primary_and_daily_snapshot (st stDup : SaveState)
    (stem today : String) (df df2 : DataFrame) (bk bk2 : Bool)
    (hfresh : st.backups.any (fun p => p.1 == snapName stem today) = false)
    (hdup : stDup.backups.any (fun p => p.1 == snapName stem today) = true) :
    ((save_df_csv st stem today df true bk).primary = some df) ∧
    ((save_df_csv stDup stem today df true bk).backups = stDup.backups) ∧
    ((save_df_csv st stem today df true true).backups =
      st.backups ++ [(snapName stem today, df)]) ∧
    ((save_df_csv st stem today df true false).backups = st.backups ∧
     (save_df_csv st stem today df true false).primary = some df) ∧
    ((save_df_csv (save_df_csv st stem today df true true) stem today df2 true bk2).backups =
      st.backups ++ [(snapName stem today, df)]) := by
  have hsave1 : save_df_csv st stem today df true true =
      { primary := some df, backups := st.backups ++ [(snapName stem today, df)] } := by
    unfold save_df_csv
    rw [if_pos rfl, backup_df_csv_fresh _ _ _ _ (by simpa using hfresh)]
  refine ⟨?_, ?_, ?_, ⟨?_, ?_⟩, ?_⟩
  · unfold save_df_csv
    rw [if_pos rfl, backup_df_csv_primary]
  · unfold save_df_csv
    rw [if_pos rfl, backup_df_csv_exists _ _ _ _ _ (by simpa using hdup)]
  · rw [hsave1]
  · unfold save_df_csv
    rw [if_pos rfl, backup_df_csv_fail]
  · unfold save_df_csv
    rw [if_pos rfl, backup_df_csv_primary]
  · rw [hsave1]
    unfold save_df_csv
    rw [if_pos rfl,
      backup_df_csv_exists _ _ _ _ _ (by simp [List.any_append])]

/-- A tiny concrete table. -/
def exDf : DataFrame :=
  ⟨1, [⟨"Ticket ID", Dtype.numeric, [Val.num 1]⟩, ⟨"Notes", Dtype.object, [Val.str "a"]⟩]⟩

/-- A second concrete table with different content. -/
def exDf2 : DataFrame :=
  ⟨1, [⟨"Ticket ID", Dtype.numeric, [Val.num 2]⟩, ⟨"Notes", Dtype.object, [Val.str "b"]⟩]⟩

/-- Witness for C5 with an empty Backups directory and one that already holds
today's snapshot. -/
theorem save_writes_primary_and_daily_snapshot_witness :
    ((SaveState.mk none []).backups.any
        (fun p => p.1 == snapName "repairs_data" "2024-05-06") = false) ∧
    ((SaveState.mk none [(snapName "repairs_data" "2024-05-06", exDf)]).backups.any
        (fun p => p.1 == snapName "repairs_data" "2024-05-06") = true) ∧
    (((save_df_csv ⟨none, []⟩ "repairs_data" "2024-05-06" exDf true false).primary =
        some exDf) ∧
     ((save_df_csv ⟨none, [(snapName "repairs_data" "2024-05-06", exDf)]⟩ "repairs_data"
        "2024-05-06" exDf true false).backups =
        (SaveState.mk none [(snapName "repairs_data" "2024-05-06", exDf)]).backups) ∧
     ((save_df_csv ⟨none, []⟩ "repairs_data" "2024-05-06" exDf true true).backups =
        ([] : List (String × DataFrame)) ++ [(snapName "repairs_data" "2024-05-06", exDf)]) ∧
     ((save_df_csv ⟨none, []⟩ "repairs_data" "2024-05-06" exDf true false).backups =
        ([] : List (String × DataFrame)) ∧
      (save_df_csv ⟨none, []⟩ "repairs_data" "2024-05-06" exDf true false).primary =
        some exDf) ∧
     ((save_df_csv (save_df_csv ⟨none, []⟩ "repairs_data" "2024-05-06" exDf true true)
        "repairs_data" "2024-05-06" exDf2 true true).backups =
        ([] : List (String × DataFrame)) ++ [(snapName "repairs_data" "2024-05-06", exDf)])) :=
  ⟨by decide, by decide,
    save_writes_primary_and_daily_snapshot ⟨none, []⟩
      ⟨none, [(snapName "repairs_data" "2024-05-06", exDf)]⟩ "repairs_data" "2024-05-06"
      exDf exDf2 false true (by decide) (by decide)⟩

/-!
## Claim C4 — CSV loading with schema reconciliation

Helper lemmas relating `hasCol`/`getCol` and tracking columns through the
rename, ensure and restrict phases of `load_df_csv`.
-/

lemma find?_append_left {p : Column → Bool} {l1 l2 : List Column} {a : Column}
    (h : l1.find? p = some a) : (l1 ++ l2).find? p = some a := by
  rw [List.find?_append, h]
  rfl

lemma hasCol_true_iff (df : DataFrame) (n : String) :
    df.hasCol n = true ↔ ∃ c, df.getCol n = some c := by
  unfold DataFrame.hasCol DataFrame.getCol
  rw [List.any_eq_true]
  constructor
  · intro hex
    have hsome : (df.cols.find? (fun c => c.name == n)).isSome = true :=
      List.find?_isSome.mpr hex
    exact Option.isSome_iff_exists.mp hsome
  · rintro ⟨c, hc⟩
    refine ⟨c, List.mem_of_find?_eq_some hc, ?_⟩
    exact @List.find?_some Column (fun c => c.name == n) c df.cols hc

lemma hasCol_false_iff (df : DataFrame) (n : String) :
    df.hasCol n = false ↔ df.getCol n = none := by
  unfold DataFrame.hasCol DataFrame.getCol
  rw [List.find?_eq_none]
  constructor
  · intro h x hx
    have : ¬ df.cols.any (fun c => c.name == n) = true := by
      rw [h]
      exact Bool.false_ne_true
    intro hp
    exact this (List.any_eq_true.mpr ⟨x, hx, hp⟩)
  · intro h
    rcases hb : df.cols.any (fun c => c.name == n) with _ | _
    · rfl
    · rcases List.any_eq_true.mp hb with ⟨x, hx, hp⟩
      exact absurd hp (h x hx)

lemma ensureCols_nrows (ds : List Column) : ∀ df : DataFrame,
    (ensureCols df ds).nrows = df.nrows := by
  induction ds with
  | nil => intro df; rfl
  | cons dc ds ih =>
    intro df
    unfold ensureCols
    by_cases h : df.hasCol dc.name
    · rw [if_pos h, ih]
    · rw [if_neg h, ih]

lemma hasCol_ensureCols_mono (ds : List Column) : ∀ (df : DataFrame) (n : String),
    df.hasCol n = true → (ensureCols df ds).hasCol n = true := by
  induction ds with
  | nil => intro df n h; exact h
  | cons dc ds ih =>
    intro df n h
    unfold ensureCols
    by_cases hd : df.hasCol dc.name
    · rw [if_pos hd]
      exact ih df n h
    · rw [if_neg hd]
      apply ih
      unfold DataFrame.hasCol at h ⊢
      simp only [List.any_append, h]
      rfl

lemma getCol_ensureCols_pres (ds : List Column) : ∀ (df : DataFrame) (n : String)
    (c : Column), df.getCol n = some c → (ensureCols df ds).getCol n = some c := by
  induction ds with
  | nil => intro df n c h; exact h
  | cons dc ds ih =>
    intro df n c h
    unfold ensureCols
    by_cases hd : df.hasCol dc.name
    · rw [if_pos hd]
      exact ih df n c h
    · rw [if_neg hd]
      apply ih
      unfold DataFrame.getCol at h ⊢
      exact find?_append_left h

lemma hasCol_ensureCols_mem (ds : List Column) : ∀ (df : DataFrame) (dc : Column),
    dc ∈ ds → (ensureCols df ds).hasCol dc.name = true := by
  induction ds with
  | nil => intro df dc h; cases h
  | cons d0 ds ih =>
    intro df dc h
    rcases List.mem_cons.mp h with h0 | h0
    · subst h0
      unfold ensureCols
      by_cases hd : df.hasCol dc.name
      · rw [if_pos hd]
        exact hasCol_ensureCols_mono ds df dc.name hd
      · rw [if_neg hd]
        apply hasCol_ensureCols_mono
        unfold DataFrame.hasCol
        simp
    · unfold ensureCols
      by_cases hd : df.hasCol d0.name
      · rw [if_pos hd]
        exact ih df dc h0
      · rw [if_neg hd]
        exact ih _ dc h0

lemma getCol_ensureCols_missing (ds : List Column) : ∀ (df : DataFrame) (dc : Column),
    (ds.map Column.name).Nodup → dc ∈ ds → df.hasCol dc.name = false →
    (ensureCols df ds).getCol dc.name =
      some ⟨dc.name, dc.dtype, List.replicate df.nrows (fillVal dc.dtype)⟩ := by
  induction ds with
  | nil => intro df dc _ h; cases h
  | cons d0 ds ih =>
    intro df dc hnodup hmem habs
    rcases List.mem_cons.mp hmem with h0 | h0
    · subst h0
      unfold ensureCols
      rw [if_neg (by rw [habs]; exact Bool.false_ne_true)]
      apply getCol_ensureCols_pres
      have hnone := (hasCol_false_iff df dc.name).mp habs
      unfold DataFrame.getCol at hnone ⊢
      rw [List.find?_append, hnone, Option.none_or]
      rw [List.find?_cons_of_pos _ (by simp)]
    · have hname : d0.name ≠ dc.name := by
        have := (List.nodup_cons.mp hnodup).1
        intro hcontra
        exact this (hcontra ▸ List.mem_map_of_mem Column.name h0)
      unfold ensureCols
      by_cases hd : df.hasCol d0.name
      · rw [if_pos hd]
        exact ih df dc (List.nodup_cons.mp hnodup).2 h0 habs
      · rw [if_neg hd]
        apply ih _ dc (List.nodup_cons.mp hnodup).2 h0
        unfold DataFrame.hasCol at habs ⊢
        simp only [List.any_append, habs]
        simp [hname]

lemma migrateYYMM_nrows (df : DataFrame) : (migrateYYMM df).nrows = df.nrows := by
  unfold migrateYYMM
  split
  · rfl
  · rfl

lemma hasCol_eq_names_any (df : DataFrame) (n : String) :
    df.hasCol n = (df.cols.map Column.name).any (fun m => m == n) := by
  unfold DataFrame.hasCol
  induction df.cols with
  | nil => rfl
  | cons c cs ih => simp only [List.any_cons, List.map_cons, ih]

lemma find?_rename (l : List Column) (c : Column)
    (hnoY : l.any (fun c => c.name == "YMM") = false)
    (hget : l.find? (fun c => c.name == "YYMM") = some c) :
    (l.map (fun c => if c.name = "YYMM" then { c with name := "YMM" } else c)).find?
      (fun c => c.name == "YMM") = some ⟨"YMM", c.dtype, c.values⟩ := by
  induction l with
  | nil => cases hget
  | cons x xs ih =>
    rw [List.any_cons] at hnoY
    rcases Bool.or_eq_false_iff.mp hnoY with ⟨hnoY_head, hnoY_tail⟩
    by_cases hx : x.name = "YYMM"
    · have hcx : c = x := by
        rw [List.find?_cons_of_pos _ (by simp [hx])] at hget
        exact (Option.some_inj.mp hget).symm
      subst hcx
      simp only [List.map_cons, if_pos hx]
      rw [List.find?_cons_of_pos _ (by simp)]
    · have hget2 : xs.find? (fun c => c.name == "YYMM") = some c := by
        rw [List.find?_cons_of_neg _ (by simp [hx])] at hget
        exact hget
      simp only [List.map_cons, if_neg hx]
      rw [List.find?_cons_of_neg _ (by simpa using hnoY_head)]
      exact ih hnoY_tail hget2

lemma restrict_names (ds l : List Column)
    (h : ∀ dc ∈ ds, ∃ c, l.find? (fun c => c.name == dc.name) = some c) :
    (ds.filterMap (fun dc => l.find? (fun c => c.name == dc.name))).map Column.name =
      ds.map Column.name := by
  induction ds with
  | nil => rfl
  | cons d0 ds ih =>
    rcases h d0 (List.mem_cons_self d0 ds) with ⟨c, hc⟩
    have hname : c.name = d0.name := by
      have hp := @List.find?_some Column (fun c => c.name == d0.name) c l hc
      simpa using hp
    rw [List.filterMap_cons, hc]
    simp only [List.map_cons, hname]
    rw [ih (fun dc hdc => h dc (List.mem_cons_of_mem d0 hdc))]

lemma restrict_find? (ds l : List Column) (dc : Column)
    (hnodup : (ds.map Column.name).Nodup) (hmem : dc ∈ ds)
    (hall : ∀ d ∈ ds, ∃ c, l.find? (fun c => c.name == d.name) = some c) :
    (ds.filterMap (fun d => l.find? (fun c => c.name == d.name))).find?
        (fun c => c.name == dc.name) = l.find? (fun c => c.name == dc.name) := by
  induction ds with
  | nil => cases hmem
  | cons d0 ds ih =>
    rcases hall d0 (List.mem_cons_self d0 ds) with ⟨c0, hc0⟩
    have hname0 : c0.name = d0.name := by
      have hp := @List.find?_some Column (fun c => c.name == d0.name) c0 l hc0
      simpa using hp
    rw [List.filterMap_cons, hc0]
    rcases List.mem_cons.mp hmem with h0 | h0
    · subst h0
      rw [List.find?_cons_of_pos _ (by simp [hname0])]
      exact hc0.symm
    · have hne : d0.name ≠ dc.name := by
        have hnotin := (List.nodup_cons.mp hnodup).1
        intro hcontra
        exact hnotin (hcontra ▸ List.mem_map_of_mem Column.name h0)
      rw [List.find?_cons_of_neg _ (by simp [hname0, hne])]
      exact ih (List.nodup_cons.mp hnodup).2 h0
        (fun d hd => hall d (List.mem_cons_of_mem d0 hd))

/-- C4: loading an existing CSV yields a table whose columns are exactly the
default schema's, in the default order; every default column absent from the
(migrated) file is added filled with `""` for text columns and `0` for
numeric ones; a `YYMM` column, present while `YMM` is absent, reappears as
the `YMM` column with its values kept and no `YYMM` column survives; and a
missing file yields the default seed table. -/
theorem load_df_csv_schema_reconciliation (defaultDf df : DataFrame) (cyy : Column)
    (hnodup : (defaultDf.cols.map Column.name).Nodup) :
    (load_df_csv none defaultDf = defaultDf) ∧
    ((load_df_csv (some df) defaultDf).cols.map Column.name =
      defaultDf.cols.map Column.name) ∧
    (∀ dc ∈ defaultDf.cols, (migrateYYMM df).hasCol dc.name = false →
      (load_df_csv (some df) defaultDf).getCol dc.name =
        some ⟨dc.name, dc.dtype, List.replicate df.nrows (fillVal dc.dtype)⟩) ∧
    (df.hasCol "YMM" = false → defaultDf.hasCol "YMM" = true →
      defaultDf.hasCol "YYMM" = false → df.getCol "YYMM" = some cyy →
      ((load_df_csv (some df) defaultDf).getCol "YMM" =
          some ⟨"YMM", cyy.dtype, cyy.values⟩ ∧
        (load_df_csv (some df) defaultDf).hasCol "YYMM" = false)) := by
  have hall : ∀ dc ∈ defaultDf.cols,
      ∃ cc, (ensureCols (migrateYYMM df) defaultDf.cols).cols.find?
        (fun c => c.name == dc.name) = some cc := by
    intro dc hdc
    have hhas := hasCol_ensureCols_mem defaultDf.cols (migrateYYMM df) dc hdc
    exact (hasCol_true_iff _ _).mp hhas
  have hnames : (load_df_csv (some df) defaultDf).cols.map Column.name =
      defaultDf.cols.map Column.name := by
    unfold load_df_csv
    exact restrict_names defaultDf.cols _ hall
  refine ⟨rfl, hnames, ?_, ?_⟩
  · intro dc hdc habs
    have hmiss := getCol_ensureCols_missing defaultDf.cols (migrateYYMM df) dc hnodup hdc habs
    have hrfind := restrict_find? defaultDf.cols
      (ensureCols (migrateYYMM df) defaultDf.cols).cols dc hnodup hdc hall
    unfold DataFrame.getCol at hmiss ⊢
    unfold load_df_csv
    rw [hrfind, hmiss, migrateYYMM_nrows]
  · intro hnoY hdefY hdefYY hget
    have hasYY : df.hasCol "YYMM" = true := (hasCol_true_iff _ _).mpr ⟨cyy, hget⟩
    have hmig : migrateYYMM df = renameYYMM df := by
      unfold migrateYYMM
      rw [if_pos]
      rw [hasYY, hnoY]
      rfl
    have hrenamed : (renameYYMM df).getCol "YMM" = some ⟨"YMM", cyy.dtype, cyy.values⟩ := by
      unfold renameYYMM DataFrame.getCol
      exact find?_rename df.cols cyy hnoY hget
    have hdf2 : (ensureCols (migrateYYMM df) defaultDf.cols).getCol "YMM" =
        some ⟨"YMM", cyy.dtype, cyy.values⟩ := by
      apply getCol_ensureCols_pres
      rw [hmig]
      exact hrenamed
    rcases (hasCol_true_iff _ _).mp hdefY with ⟨cY, hcY⟩
    have hcYname : cY.name = "YMM" := by
      have hp := @List.find?_some Column (fun c => c.name == "YMM") cY defaultDf.cols hcY
      simpa using hp
    have hcYmem : cY ∈ defaultDf.cols := List.mem_of_find?_eq_some hcY
    have hrfind := restrict_find? defaultDf.cols
      (ensureCols (migrateYYMM df) defaultDf.cols).cols cY hnodup hcYmem hall
    rw [hcYname] at hrfind
    constructor
    · unfold DataFrame.getCol at hdf2 ⊢
      unfold load_df_csv
      rw [hrfind]
      exact hdf2
    · rw [hasCol_eq_names_any, hnames, ← hasCol_eq_names_any]
      exact hdefYY

/-- A small default schema: Ticket ID (numeric), YMM and Notes (text). -/
def exDefaultDf : DataFrame :=
  ⟨2, [⟨"Ticket ID", Dtype.numeric, [Val.num 1, Val.num 2]⟩,
       ⟨"YMM", Dtype.object, [Val.str "a", Val.str "b"]⟩,
       ⟨"Notes", Dtype.object, [Val.str "", Val.str ""]⟩]⟩

/-- A legacy file frame: has `YYMM` but neither `YMM`, `Ticket ID` nor
`Notes`, plus an extra column the loader must drop. -/
def exFileDf : DataFrame :=
  ⟨2, [⟨"YYMM", Dtype.object, [Val.str "2020 FORD", Val.str "2021 HINO"]⟩,
       ⟨"Extra", Dtype.object, [Val.str "x", Val.str "y"]⟩]⟩

/-- Witness for C4 on the legacy example file. -/
theorem load_df_csv_schema_reconciliation_witness :
    ((exDefaultDf.cols.map Column.name).Nodup) ∧
    ((load_df_csv none exDefaultDf = exDefaultDf) ∧
    ((load_df_csv (some exFileDf) exDefaultDf).cols.map Column.name =
      exDefaultDf.cols.map Column.name) ∧
    (∀ dc ∈ exDefaultDf.cols, (migrateYYMM exFileDf).hasCol dc.name = false →
      (load_df_csv (some exFileDf) exDefaultDf).getCol dc.name =
        some ⟨dc.name, dc.dtype, List.replicate exFileDf.nrows (fillVal dc.dtype)⟩) ∧
    (exFileDf.hasCol "YMM" = false → exDefaultDf.hasCol "YMM" = true →
      exDefaultDf.hasCol "YYMM" = false →
      exFileDf.getCol "YYMM" =
        some ⟨"YYMM", Dtype.object, [Val.str "2020 FORD", Val.str "2021 HINO"]⟩ →
      ((load_df_csv (some exFileDf) exDefaultDf).getCol "YMM" =
          some ⟨"YMM", Dtype.object, [Val.str "2020 FORD", Val.str "2021 HINO"]⟩ ∧
        (load_df_csv (some exFileDf) exDefaultDf).hasCol "YYMM" = false))) :=
  ⟨by decide,
    load_df_csv_schema_reconciliation exDefaultDf exFileDf
      ⟨"YYMM", Dtype.object, [Val.str "2020 FORD", Val.str "2021 HINO"]⟩ (by decide)⟩

/-!
## Claim C10 — session-init normalization of the repairs table
-/

lemma find?_map_names (f : Column → Column) (hf : ∀ c, (f c).name = c.name)
    (l : List Column) (n : String) :
    (l.map f).find? (fun c => c.name == n) = (l.find? (fun c => c.name == n)).map f := by
  induction l with
  | nil => rfl
  | cons x xs ih =>
    by_cases hx : x.name = n
    · rw [List.map_cons, List.find?_cons_of_pos _ (by simp [hf, hx]),
        List.find?_cons_of_pos _ (by simp [hx])]
      rfl
    · rw [List.map_cons, List.find?_cons_of_neg _ (by simp [hf, hx]),
        List.find?_cons_of_neg _ (by simp [hx]), ih]

lemma coerce_names (df : DataFrame) :
    (coerceTicketIdCol df).cols.map Column.name = df.cols.map Column.name := by
  unfold coerceTicketIdCol
  rw [List.map_map]
  apply List.map_congr_left
  intro c _
  by_cases hc : c.name = "Ticket ID" <;> simp [hc]

lemma hasCol_coerce (df : DataFrame) (n : String) :
    (coerceTicketIdCol df).hasCol n = df.hasCol n := by
  rw [hasCol_eq_names_any, coerce_names, ← hasCol_eq_names_any]

lemma getCol_coerce (df : DataFrame) (c : Column) (hc : df.getCol "Ticket ID" = some c) :
    (coerceTicketIdCol df).getCol "Ticket ID" =
      some ⟨"Ticket ID", Dtype.numeric, c.values.map (fun v => Val.num (toNumInt v))⟩ := by
  have hcname : c.name = "Ticket ID" := by
    have hp := @List.find?_some Column (fun c => c.name == "Ticket ID") c df.cols hc
    simpa using hp
  unfold coerceTicketIdCol DataFrame.getCol
  unfold DataFrame.getCol at hc
  rw [find?_map_names _ (fun c => by by_cases hx : c.name = "Ticket ID" <;> simp [hx]), hc]
  simp [hcname]

lemma hasCol_ensureCompletedDate (df : DataFrame) :
    (ensureCompletedDateCol df).hasCol "Completed Date" = true := by
  unfold ensureCompletedDateCol
  split
  · assumption
  · unfold DataFrame.hasCol
    rw [List.any_append]
    simp

lemma getCol_ensureCompletedDate_pres (df : DataFrame) (n : String) (c : Column)
    (h : df.getCol n = some c) : (ensureCompletedDateCol df).getCol n = some c := by
  unfold ensureCompletedDateCol
  split
  · exact h
  · unfold DataFrame.getCol at h ⊢
    exact find?_append_left h

/-- C10: after session-init normalization every Ticket ID cell is an integer;
when the loaded frame has no Ticket ID column one is inserted holding
`1..n` in order; a Ticket ID cell holding a non-numeric string is coerced to
`0`; a Completed Date column always exists afterwards, added holding `""`
when it was absent. -/
theorem initNormalize_ticketId_completedDate (df : DataFrame) (c0 : Column) :
    (∀ col ∈ (initNormalizeRepairs df).cols, col.name = "Ticket ID" →
      ∀ v ∈ col.values, ∃ k, v = Val.num k) ∧
    (df.hasCol "Ticket ID" = false →
      (initNormalizeRepairs df).getCol "Ticket ID" =
        some ⟨"Ticket ID", Dtype.numeric,
          (List.range df.nrows).map (fun i => Val.num ((i : Int) + 1))⟩) ∧
    (df.getCol "Ticket ID" = some c0 →
      ((initNormalizeRepairs df).getCol "Ticket ID" =
        some ⟨"Ticket ID", Dtype.numeric, c0.values.map (fun v => Val.num (toNumInt v))⟩ ∧
       ∀ (i : Nat) (hi : i < c0.values.length) (s : String),
         c0.values.get ⟨i, hi⟩ = Val.str s → parseIntLit s.strip = none →
         ∃ c1, (initNormalizeRepairs df).getCol "Ticket ID" = some c1 ∧
           ∃ hj : i < c1.values.length, c1.values.get ⟨i, hj⟩ = Val.num 0)) ∧
    ((initNormalizeRepairs df).hasCol "Completed Date" = true) ∧
    (df.hasCol "Completed Date" = false →
      (initNormalizeRepairs df).getCol "Completed Date" =
        some ⟨"Completed Date", Dtype.object, List.replicate df.nrows (Val.str "")⟩) := by
  refine ⟨?_, ?_, ?_, hasCol_ensureCompletedDate _, ?_⟩
  · intro col hcol hname v hv
    unfold initNormalizeRepairs ensureCompletedDateCol at hcol
    have hmapped : col ∈ (coerceTicketIdCol (ensureTicketIdCol df)).cols → ∃ k, v = Val.num k := by
      intro hmem
      unfold coerceTicketIdCol at hmem
      rcases List.mem_map.mp hmem with ⟨c, hc, hfc⟩
      by_cases hcn : c.name = "Ticket ID"
      · rw [if_pos hcn] at hfc
        rw [← hfc] at hv
        rcases List.mem_map.mp hv with ⟨w, _, hw⟩
        exact ⟨toNumInt w, hw.symm⟩
      · rw [if_neg hcn] at hfc
        rw [← hfc] at hname
        exact absurd hname hcn
    split at hcol
    · exact hmapped hcol
    · rcases List.mem_append.mp hcol with hmem | hmem
      · exact hmapped hmem
      · rcases List.mem_singleton.mp hmem with rfl
        simp at hname
  · intro habs
    have hins : ensureTicketIdCol df =
        ⟨df.nrows, ⟨"Ticket ID", Dtype.numeric,
          (List.range df.nrows).map (fun i => Val.num ((i : Int) + 1))⟩ :: df.cols⟩ := by
      unfold ensureTicketIdCol
      rw [if_neg (by rw [habs]; exact Bool.false_ne_true)]
    have hget : (ensureTicketIdCol df).getCol "Ticket ID" =
        some ⟨"Ticket ID", Dtype.numeric,
          (List.range df.nrows).map (fun i => Val.num ((i : Int) + 1))⟩ := by
      rw [hins]
      unfold DataFrame.getCol
      rw [List.find?_cons_of_pos _ (by simp)]
    have hco := getCol_coerce (ensureTicketIdCol df) _ hget
    apply getCol_ensureCompletedDate_pres
    rw [hco]
    simp [List.map_map, toNumInt]
  · intro hget0
    have hhas : df.hasCol "Ticket ID" = true := (hasCol_true_iff _ _).mpr ⟨c0, hget0⟩
    have hins : ensureTicketIdCol df = df := by
      unfold ensureTicketIdCol
      rw [if_pos hhas]
    have hco := getCol_coerce df c0 hget0
    have hres : (initNormalizeRepairs df).getCol "Ticket ID" =
        some ⟨"Ticket ID", Dtype.numeric, c0.values.map (fun v => Val.num (toNumInt v))⟩ := by
      unfold initNormalizeRepairs
      rw [hins]
      exact getCol_ensureCompletedDate_pres _ _ _ hco
    refine ⟨hres, ?_⟩
    intro i hi s hs hparse
    refine ⟨⟨"Ticket ID", Dtype.numeric, c0.values.map (fun v => Val.num (toNumInt v))⟩,
      hres, ?_⟩
    have hj : i < (c0.values.map (fun v => Val.num (toNumInt v))).length := by
      simpa using hi
    refine ⟨hj, ?_⟩
    rw [List.get_eq_getElem, List.getElem_map]
    rw [List.get_eq_getElem] at hs
    rw [hs]
    simp [toNumInt, hparse]
  · intro habs
    have h1 : (ensureTicketIdCol df).hasCol "Completed Date" = false := by
      unfold ensureTicketIdCol
      split
      · exact habs
      · unfold DataFrame.hasCol at habs ⊢
        rw [List.any_cons]
        simp [habs]
    have h2 : (coerceTicketIdCol (ensureTicketIdCol df)).hasCol "Completed Date" = false := by
      rw [hasCol_coerce]
      exact h1
    have hnr : (coerceTicketIdCol (ensureTicketIdCol df)).nrows = df.nrows := by
      unfold coerceTicketIdCol ensureTicketIdCol
      split <;> rfl
    have hnone := (hasCol_false_iff _ _).mp h2
    unfold initNormalizeRepairs ensureCompletedDateCol
    rw [if_neg (by rw [h2]; exact Bool.false_ne_true)]
    unfold DataFrame.getCol at hnone ⊢
    rw [List.find?_append, hnone, Option.none_or,
      List.find?_cons_of_pos _ (by simp), hnr]

/-- A Ticket ID column holding a non-numeric string. -/
def exBadCol : Column :=
  ⟨"Ticket ID", Dtype.object, [Val.str "abc", Val.num 7]⟩

/-- A loaded frame whose Ticket ID column holds a non-numeric string. -/
def exBadDf : DataFrame :=
  ⟨2, [exBadCol]⟩

/-- Witness for C10: `exFileDf` (no Ticket ID, no Completed Date) gets the
`1..n` column and an empty Completed Date column; `exBadDf`'s non-numeric
Ticket ID cell is coerced to 0. -/
theorem initNormalize_ticketId_completedDate_witness :
    (exFileDf.hasCol "Ticket ID" = false) ∧
    ((initNormalizeRepairs exFileDf).getCol "Ticket ID" =
      some ⟨"Ticket ID", Dtype.numeric,
        (List.range exFileDf.nrows).map (fun i => Val.num ((i : Int) + 1))⟩) ∧
    (exBadDf.getCol "Ticket ID" = some exBadCol) ∧
    ((initNormalizeRepairs exBadDf).getCol "Ticket ID" =
      some ⟨"Ticket ID", Dtype.numeric,
        exBadCol.values.map (fun v => Val.num (toNumInt v))⟩) ∧
    (∃ c1, (initNormalizeRepairs exBadDf).getCol "Ticket ID" = some c1 ∧
      ∃ hj : 0 < c1.values.length, c1.values.get ⟨0, hj⟩ = Val.num 0) ∧
    ((initNormalizeRepairs exFileDf).hasCol "Completed Date" = true) ∧
    (exFileDf.hasCol "Completed Date" = false) ∧
    ((initNormalizeRepairs exFileDf).getCol "Completed Date" =
      some ⟨"Completed Date", Dtype.object, List.replicate exFileDf.nrows (Val.str "")⟩) :=
  ⟨by decide,
   (initNormalize_ticketId_completedDate exFileDf exBadCol).2.1 (by decide),
   by decide,
   ((initNormalize_ticketId_completedDate exBadDf exBadCol).2.2.1 (by decide)).1,
   ((initNormalize_ticketId_completedDate exBadDf exBadCol).2.2.1 (by decide)).2
     0 (by decide) "abc" (by decide) (by decide),
   (initNormalize_ticketId_completedDate exFileDf exBadCol).2.2.2.1,
   by decide,
   (initNormalize_ticketId_completedDate exFileDf exBadCol).2.2.2.2 (by decide)⟩
